import Mathlib

/-!
Shallow embedding of the Ai-Subtitle backend (src/server.js).

Paths are modelled relative to the server directory (`__dirname`), so
`path.join(__dirname, 'uploads')` becomes `"uploads"` and the temporary
subtitle copy `path.join(__dirname, localSrtName)` is just `localSrtName`.
The Linux branch of the source is taken (`isWin = false`, so
`ffmpegPath = "ffmpeg"` and no `process.env.PATH` mutation).

External tools (ffmpeg, whisper) are opaque: a `ToolOracle` fixes, for each
of the three invocations of the job, the result of `exec` (captured stdout or
an error message) and whether the expected output file appears on success.
The filesystem is a list of present paths; the socket is an optional
subscriber, and `socket.emit` on an absent socket raises a JavaScript
`TypeError`, exactly as property access on `undefined` does.
-/

deriving instance DecidableEq for Except

/-- The uploads directory: `UPLOADS_DIR = path.join(__dirname, 'uploads')` (server.js line 24). -/
def UPLOADS_DIR : String := "uploads"

/-- The outputs directory: `OUTPUT_DIR = path.join(__dirname, 'outputs')` (server.js line 25). -/
def OUTPUT_DIR : String := "outputs"

/-- The non-Windows branch of the ffmpeg path selection (server.js lines 57-61). -/
def ffmpegPath : String := "ffmpeg"

/-- Node's `path.join(a, b)` for the simple two-segment uses in server.js. -/
def pathJoin (a b : String) : String := a ++ "/" ++ b

/-- The part of a path after its last `/` (the basic step of Node's
`path.basename` / `path.extname` on POSIX paths). -/
def baseNameOf (p : String) : String :=
  ⟨(p.data.reverse.takeWhile (fun c => c != '/')).reverse⟩

/-- Node's `path.extname(p)`: the suffix of the basename from its last dot,
empty when there is no dot or the only candidate dot leads the basename. -/
def extname (p : String) : String :=
  let rev := (baseNameOf p).data.reverse
  match rev.dropWhile (fun c => c != '.') with
  | [] => ""
  | [_] => ""
  | _ :: _ :: _ => ⟨'.' :: (rev.takeWhile (fun c => c != '.')).reverse⟩

/-- Node's `path.basename(p, ext)`: the basename, with the suffix `ext`
removed when it is nonempty, matches, and is not the whole basename. -/
def basename (p ext : String) : String :=
  let base := baseNameOf p
  if ext ≠ "" ∧ base ≠ ext ∧ ext.data.isSuffixOf base.data then
    ⟨base.data.take (base.data.length - ext.data.length)⟩
  else base

/-- The job id: `jobId = path.basename(filePath, path.extname(filePath))` (line 88). -/
def derivedJobId (filePath : String) : String :=
  basename filePath (extname filePath)

/-- The intermediate audio file: `audioFile = path.join(UPLOADS_DIR, jobId + '.wav')` (line 89). -/
def audioPath (filePath : String) : String :=
  pathJoin UPLOADS_DIR (derivedJobId filePath ++ ".wav")

/-- The output video filename: `finalVideoName = 'subtitled_' + jobId + '.mp4'` (line 92). -/
def finalVideoName (filePath : String) : String :=
  "subtitled_" ++ derivedJobId filePath ++ ".mp4"

/-- The output video path: `finalVideo = path.join(OUTPUT_DIR, finalVideoName)` (line 93). -/
def finalVideoPath (filePath : String) : String :=
  pathJoin OUTPUT_DIR (finalVideoName filePath)

/-- The expected subtitle file: `generatedSrt = path.join(OUTPUT_DIR, jobId + '.srt')` (line 120). -/
def generatedSrtPath (filePath : String) : String :=
  pathJoin OUTPUT_DIR (derivedJobId filePath ++ ".srt")

/-- The temporary subtitle copy name: `localSrtName = 'temp_' + jobId + '.srt'` (line 127). -/
def localSrtName (filePath : String) : String :=
  "temp_" ++ derivedJobId filePath ++ ".srt"

/-- The temporary subtitle copy path `localSrt = path.join(__dirname, localSrtName)` (line 128), modelled
relative to `__dirname`. -/
def localSrtPath (filePath : String) : String := localSrtName filePath

/-- The download reference: `downloadUrl = '/download/' + finalVideoName` (line 152). -/
def downloadUrl (filePath : String) : String :=
  "/download/" ++ finalVideoName filePath

/-- The audio-extraction command of Step 1 (line 103). -/
def extractCmd (filePath : String) : String :=
  "\"" ++ ffmpegPath ++ "\" -y -i \"" ++ filePath ++
    "\" -ar 16000 -ac 1 -c:a pcm_s16le \"" ++ audioPath filePath ++ "\""

/-- The whisper transcription command of Step 2 (line 116). -/
def whisperCmd (filePath : String) : String :=
  "whisper \"" ++ audioPath filePath ++
    "\" --model base --output_format srt --output_dir \"" ++ OUTPUT_DIR ++ "\""

/-- The fixed subtitle style of the burn step (line 137). -/
def subtitleStyle : String :=
  "Fontname=Arial,Fontsize=10,PrimaryColour=&H00FFFFFF,OutlineColour=&H00000000,BorderStyle=1,Outline=1,Shadow=0,Bold=0,MarginV=10,Alignment=2"

/-- The subtitle-burning command of Step 3 (line 141). -/
def burnCmd (filePath : String) : String :=
  "\"" ++ ffmpegPath ++ "\" -y -i \"" ++ filePath ++ "\" -vf \"subtitles='" ++
    localSrtName filePath ++ "':force_style='" ++ subtitleStyle ++ "'\" \"" ++
    finalVideoPath filePath ++ "\""

/-- A connected socket.io client, identified by its socket id. -/
structure Subscriber where
  sid : String
deriving DecidableEq, Repr

/-- The payload of a socket.io event emitted by the server. -/
inductive Payload
  | str (s : String)
  | num (n : Nat)
  | urlObj (downloadUrl : String)
deriving DecidableEq, Repr

/-- The event kinds the server emits: `log`, `progress`, `complete`, `error`. -/
inductive EventKind
  | log
  | progress
  | complete
  | error
deriving DecidableEq, Repr

/-- One emitted event. -/
structure Event where
  kind : EventKind
  payload : Payload
deriving DecidableEq, Repr

/-- A JavaScript exception value as far as the pipeline observes it: an
`Error` (from `exec` failure, a thrown `new Error`, or a filesystem call) or
a `TypeError` (property access on `undefined`). `catch` catches both. -/
inductive JsErr
  | jsError (message : String)
  | typeError (message : String)
deriving DecidableEq, Repr

/-- The message of a JavaScript exception, `err.message`, as read in the catch block (lines 159-160). -/
def JsErr.message : JsErr → String
  | .jsError m => m
  | .typeError m => m

/-- The message of the `TypeError` raised by `socket.emit` when `socket` is
`undefined`. -/
def tpeMsg : String := "Cannot read properties of undefined (reading 'emit')"

/-- The observable state threaded through one job: the filesystem (the set of
present paths), the commands handed to `exec` in order, the events emitted in
order, and whether the `cleanup` closure has run. -/
structure PState where
  fs : List String
  cmds : List String
  events : List Event
  cleanupRan : Bool
deriving DecidableEq, Repr

/-- Append one emitted event to the trace. -/
def pushEvent (e : Event) (st : PState) : PState :=
  { st with events := st.events ++ [e] }

/-- Record one command handed to `exec`. -/
def recordCmd (c : String) (st : PState) : PState :=
  { st with cmds := st.cmds ++ [c] }

/-- A file appearing on disk (created by an external tool). -/
def addFile (p : String) (st : PState) : PState :=
  { st with fs := st.fs ++ [p] }

/-- Node's `fs.existsSync(p)`. -/
def existsSync (p : String) (fs : List String) : Bool := fs.contains p

/-- Node's `fs.unlinkSync(p)`: removes the path, throwing `ENOENT` when absent. -/
def unlinkSync (p : String) (fs : List String) : Except String (List String) :=
  if fs.contains p then .ok (fs.filter (fun q => q != p))
  else .error ("ENOENT: no such file or directory, unlink " ++ p)

/-- Node's `fs.copyFileSync(src, dst)`: the destination appears, throwing `ENOENT`
when the source is absent. -/
def copyFileSync (src dst : String) (fs : List String) : Except String (List String) :=
  if fs.contains src then .ok (fs ++ [dst])
  else .error ("ENOENT: no such file or directory, copyfile " ++ src)

/-- The `cleanup` closure of lines 95-97: remove the intermediate audio file
when it is present (and nothing else). -/
def cleanupFs (audioFile : String) (fs : List String) : Except String (List String) :=
  if existsSync audioFile fs then unlinkSync audioFile fs else .ok fs

/-- The outcome of each `exec` of a job, and which expected output files the
external tools produce on success: the oracle for the opaque tools. -/
structure ToolOracle where
  extractRes : Except String String
  extractWav : Bool
  whisperRes : Except String String
  whisperSrt : Bool
  burnRes : Except String String
  burnMp4 : Bool
deriving Repr

/-- Sequencing in the body of the `try` block: stop at the first raised
exception, carrying the state at the raise. -/
def step {e a b : Type} (x : Except e a) (f : a → Except e b) : Except e b :=
  match x with
  | .error err => .error err
  | .ok v => f v

/-- Emission `socket.emit(kind, payload)` on a possibly-undefined socket: appends to
the event trace when the socket is live, raises a `TypeError` when it is
`undefined`. -/
def emitE (socket : Option Subscriber) (k : EventKind) (p : Payload)
    (st : PState) : Except (JsErr × PState) PState :=
  match socket with
  | some _ => .ok (pushEvent ⟨k, p⟩ st)
  | none => .error (.typeError tpeMsg, st)

/-- The helper `runCommand(command, socket)` (lines 73-84): run the command; on `exec`
error, emit a log event when the socket is live (`if (socket) ...`) and
reject with the error; on success resolve with the captured stdout. -/
def runCommandE (cmd : String) (socket : Option Subscriber)
    (result : Except String String) (st : PState) :
    Except (JsErr × PState) (String × PState) :=
  let st1 := recordCmd cmd st
  match result with
  | .ok stdout => .ok (stdout, st1)
  | .error msg =>
      let st2 := match socket with
        | some _ => pushEvent ⟨.log, .str ("❌ Error: " ++ msg)⟩ st1
        | none => st1
      .error (.jsError msg, st2)

/-- The body of the `try` block of `processVideo` (lines 100-155). -/
def tryBlock (filePath : String) (socket : Option Subscriber) (o : ToolOracle)
    (st : PState) : Except (JsErr × PState) PState :=
  step (emitE socket .log (.str "🎵 Step 1: Extracting audio...") st) fun st =>
  step (emitE socket .progress (.num 10) st) fun st =>
  step (runCommandE (extractCmd filePath) socket o.extractRes st) fun r =>
  let st := if o.extractWav then addFile (audioPath filePath) r.2 else r.2
  step (emitE socket .log (.str "✅ Audio extracted.") st) fun st =>
  step (emitE socket .log (.str "🧠 Step 2: Generating subtitles (Whisper)...") st) fun st =>
  step (emitE socket .progress (.num 30) st) fun st =>
  step (runCommandE (whisperCmd filePath) socket o.whisperRes st) fun r =>
  let st := if o.whisperSrt then addFile (generatedSrtPath filePath) r.2 else r.2
  step (emitE socket .log (.str "✅ Subtitles generated.") st) fun st =>
  step (emitE socket .log (.str "🎥 Step 3: Burning subtitles into video...") st) fun st =>
  step (emitE socket .progress (.num 60) st) fun st =>
  step (if existsSync (generatedSrtPath filePath) st.fs then
          match copyFileSync (generatedSrtPath filePath) (localSrtPath filePath) st.fs with
          | .ok fs => .ok { st with fs := fs }
          | .error m => .error (JsErr.jsError m, st)
        else .error (JsErr.jsError "SRT file was not generated.", st)) fun st =>
  step (runCommandE (burnCmd filePath) socket o.burnRes st) fun r =>
  let st := if o.burnMp4 then addFile (finalVideoPath filePath) r.2 else r.2
  step (if existsSync (localSrtPath filePath) st.fs then
          match unlinkSync (localSrtPath filePath) st.fs with
          | .ok fs => .ok { st with fs := fs }
          | .error m => .error (JsErr.jsError m, st)
        else .ok st) fun st =>
  step (emitE socket .log (.str "✅ Video processing complete!") st) fun st =>
  step (emitE socket .progress (.num 100) st) fun st =>
  step (emitE socket .complete (.urlObj (downloadUrl filePath)) st) fun st =>
  step (match cleanupFs (audioPath filePath) st.fs with
        | .ok fs => .ok { st with fs := fs, cleanupRan := true }
        | .error m => .error (JsErr.jsError m, { st with cleanupRan := true })) fun st =>
  .ok st

/-- How one job ends: the `try` block ran to its end, the `catch` block ran
to its end (the job failed with an emitted message), or an exception escaped
`processVideo` (an unhandled promise rejection). -/
inductive Outcome
  | completed
  | failed (message : String)
  | crashed (message : String)
deriving DecidableEq, Repr

/-- A finished run of `processVideo`: its outcome and final observable state. -/
structure RunResult where
  outcome : Outcome
  final : PState
deriving DecidableEq, Repr

/-- The orchestrator `processVideo(filePath, originalName, socket)` (lines 87-162) against a
tool oracle and an initial filesystem: the `try` block, and on an exception
the `catch` block (`console.error`; `socket.emit('error', err.message)`;
`socket.emit('log', ...)`), whose own emits raise again when the socket is
`undefined`. -/
def processVideo (filePath originalName : String) (socket : Option Subscriber)
    (o : ToolOracle) (fs0 : List String) : RunResult :=
  match tryBlock filePath socket o ⟨fs0, [], [], false⟩ with
  | .ok st => ⟨.completed, st⟩
  | .error (e, st) =>
      match socket with
      | some _ =>
          let st := pushEvent ⟨.error, .str e.message⟩ st
          let st := pushEvent ⟨.log, .str ("❌ Error: " ++ e.message)⟩ st
          ⟨.failed e.message, st⟩
      | none => ⟨.crashed tpeMsg, st⟩

/-- The record `req.file` as multer's disk storage builds it (lines 46-54): stored
filename `Date.now() + '-' + file.originalname`, stored under `UPLOADS_DIR`. -/
structure UploadedFile where
  path : String
  originalname : String
  filename : String
deriving DecidableEq, Repr

/-- The stored filename chosen by the disk storage callback (line 51). -/
def storedFilename (ts : Nat) (originalname : String) : String :=
  toString ts ++ "-" ++ originalname

/-- The uploaded-file record for an upload at time `ts` of `originalname`. -/
def multerStore (ts : Nat) (originalname : String) : UploadedFile :=
  { path := pathJoin UPLOADS_DIR (storedFilename ts originalname)
    originalname := originalname
    filename := storedFilename ts originalname }

/-- The JSON acknowledgement of `/upload` (line 182). -/
structure UploadResponse where
  message : String
  jobId : String
deriving DecidableEq, Repr

/-- The acknowledgement `res.json` with message and `jobId: req.file.filename` (line 182). -/
def uploadResponse (f : UploadedFile) : UploadResponse :=
  { message := "Upload successful, processing started", jobId := f.filename }

/-- The `/upload` handler past validation (lines 170-182): the ingress log
emit when the socket resolves, the background `processVideo` call with
`(req.file.path, req.file.originalname, socket)`, and the acknowledgement. -/
def handleUpload (f : UploadedFile) (socket : Option Subscriber)
    (o : ToolOracle) (fs0 : List String) :
    List Event × RunResult × UploadResponse :=
  let pre : List Event := match socket with
    | some _ => [⟨.log, .str "🚀 Received file. Starting process..."⟩]
    | none => []
  (pre, processVideo f.path f.originalname socket o fs0, uploadResponse f)

/-- Whether an event is an `error` event. -/
def isErrorEvent : Event → Bool
  | ⟨.error, _⟩ => true
  | _ => false

/-- The `error` events of a trace. -/
def errorEvents (evs : List Event) : List Event := evs.filter isErrorEvent

/-- Whether an event is a `complete` event. -/
def isCompleteEvent : Event → Bool
  | ⟨.complete, _⟩ => true
  | _ => false

/-- The `complete` events of a trace. -/
def completeEvents (evs : List Event) : List Event := evs.filter isCompleteEvent

/-- The payloads of the `progress` events of a trace, in emission order. -/
def progressEvents (evs : List Event) : List Nat :=
  evs.filterMap fun e =>
    match e.kind, e.payload with
    | .progress, .num n => some n
    | _, _ => none

/-- The stored path of the end-to-end scenario of the spec:
`movie.mp4` uploaded at timestamp 1700000000000. -/
def demoFp : String := pathJoin UPLOADS_DIR "1700000000000-movie.mp4"

/-- An oracle where every tool succeeds and produces its expected output. -/
def okOracle : ToolOracle :=
  { extractRes := .ok "", extractWav := true
    whisperRes := .ok "", whisperSrt := true
    burnRes := .ok "", burnMp4 := true }

/-- An oracle where transcription reports success but produces no subtitle
file. -/
def srtMissingOracle : ToolOracle :=
  { okOracle with whisperSrt := false }

/-- An oracle where the audio-extraction tool fails. -/
def extractFailOracle : ToolOracle :=
  { okOracle with extractRes := .error "boom" }

set_option maxHeartbeats 1000000

/-- The `cleanup` closure never throws and removes exactly the occurrences of
the captured audio path: the guard `if (fs.existsSync(audioFile))` makes the
missing-file branch of `unlinkSync` unreachable. -/
theorem cleanupFs_eq (a : String) (fs : List String) :
    cleanupFs a fs = .ok (fs.filter (fun q => q != a)) := by
  by_cases h : a ∈ fs
  · simp [cleanupFs, unlinkSync, existsSync, h]
  · have hf : fs.filter (fun q => q != a) = fs := by
      apply List.filter_eq_self.mpr
      intro x hx
      simp only [bne_iff_ne, ne_eq, decide_eq_true_eq]
      exact fun he => h (he ▸ hx)
    simp [cleanupFs, unlinkSync, existsSync, h, hf]

/-- Whatever the socket, the tool results and the starting filesystem, the
progress payloads of one job form an initial segment of `[10, 30, 60, 100]`. -/
theorem progress_shape (fp orig : String) (sock : Option Subscriber) (o : ToolOracle)
    (fs0 : List String) :
    progressEvents (processVideo fp orig sock o fs0).final.events ∈
      ([[], [10], [10, 30], [10, 30, 60], [10, 30, 60, 100]] : List (List Nat)) := by
  obtain ⟨er, ew, wr, ws, br, bm⟩ := o
  cases sock with
  | none =>
      simp [processVideo, tryBlock, emitE, step, progressEvents]
  | some s =>
      cases er with
      | error m =>
          simp [processVideo, tryBlock, emitE, runCommandE, step, pushEvent, recordCmd,
            progressEvents]
      | ok o1 =>
        cases wr with
        | error m =>
            cases ew <;>
              simp [processVideo, tryBlock, emitE, runCommandE, step, pushEvent, recordCmd,
                addFile, progressEvents]
        | ok o2 =>
          by_cases h2 : generatedSrtPath fp = audioPath fp
          · by_cases h1 : audioPath fp ∈ fs0 <;>
              cases ws <;> cases ew <;> cases br <;> cases bm <;>
              simp [processVideo, tryBlock, emitE, runCommandE, step, pushEvent, recordCmd,
                addFile, existsSync, copyFileSync, unlinkSync, cleanupFs_eq, h2, h1,
                progressEvents]
          · by_cases h1 : generatedSrtPath fp ∈ fs0 <;>
              cases ws <;> cases ew <;> cases br <;> cases bm <;>
              simp [processVideo, tryBlock, emitE, runCommandE, step, pushEvent, recordCmd,
                addFile, existsSync, copyFileSync, unlinkSync, cleanupFs_eq, h2, h1,
                progressEvents]

/-- C1. The claim says that with an absent subscriber every event emission is
a silent no-op and the job still runs to completion or failure. The code
contradicts it: with `socket` undefined the first `socket.emit` of
`processVideo` throws a `TypeError`, the catch block's own `socket.emit`
throws again, so the background task dies with an unhandled rejection before
any pipeline stage runs — while the identical input with a live subscriber
completes. -/
theorem claim_C1_no_subscriber_crashes :
    (processVideo demoFp "movie.mp4" none okOracle [demoFp]).outcome = .crashed tpeMsg ∧
    (processVideo demoFp "movie.mp4" none okOracle [demoFp]).final.cmds = [] ∧
    (processVideo demoFp "movie.mp4" none okOracle [demoFp]).final.events = [] ∧
    (processVideo demoFp "movie.mp4" (some ⟨"s1"⟩) okOracle [demoFp]).outcome =
      .completed := by
  decide

/-- C2, counterexample. For the stored filename `1700000000000-movie.mp4` the
acknowledgement's `jobId` (the stored filename, extension included) differs
from the job id the orchestrator derives (extension stripped), so the
acknowledgement does not carry the derived job id. -/
theorem counterexample_C2 :
    (uploadResponse (multerStore 1700000000000 "movie.mp4")).jobId ≠
      derivedJobId (multerStore 1700000000000 "movie.mp4").path := by
  decide

/-- C2, amended. The acknowledgement carries the stored filename itself
(extension included) as `jobId`, not the extension-stripped id the
orchestrator keys its paths by: for `1700000000000-movie.mp4` the
acknowledged id is `1700000000000-movie.mp4` while the orchestrator's derived
id is `1700000000000-movie`. -/
theorem claim_C2_amended :
    (∀ f : UploadedFile, (uploadResponse f).jobId = f.filename ∧
      (uploadResponse f).message = "Upload successful, processing started") ∧
    (uploadResponse (multerStore 1700000000000 "movie.mp4")).jobId =
      "1700000000000-movie.mp4" ∧
    derivedJobId (multerStore 1700000000000 "movie.mp4").path =
      "1700000000000-movie" :=
  ⟨fun f => ⟨rfl, rfl⟩, by decide, by decide⟩

/-- C3, counterexample. With both the intermediate audio file and the
temporary subtitle copy present, `cleanup()` removes only the audio file: the
temporary subtitle copy survives, so cleanup does not remove both targets. -/
theorem counterexample_C3 :
    cleanupFs (audioPath demoFp) [audioPath demoFp, localSrtPath demoFp] =
      .ok [localSrtPath demoFp] ∧
    localSrtPath demoFp ∈ [localSrtPath demoFp] := by
  decide

/-- C3, amended. `cleanup()` removes only the intermediate audio file when
present; it never throws (also when the audio file is absent) and is
idempotent. The temporary subtitle copy is not cleanup's target: it is
removed by a separate guarded unlink on the success path. -/
theorem claim_C3_amended (a : String) (fs : List String) :
    cleanupFs a fs = .ok (fs.filter (fun q => q != a)) ∧
    cleanupFs a (fs.filter (fun q => q != a)) = .ok (fs.filter (fun q => q != a)) := by
  refine ⟨cleanupFs_eq a fs, ?_⟩
  rw [cleanupFs_eq]
  simp [List.filter_filter]

/-- C4, counterexample. The claim says the rendered output filename never
embeds the user-supplied original filename and that every path reaches the
subprocess as a safely quoted whole argument. Both halves fail: for the
upload `movie.mp4` the output filename contains the original filename
verbatim (the stored name is `<timestamp>-<originalname>` and the job id
keeps it), and an original name containing a double quote puts a double
quote inside the stored path, which the plain `"..."` wrapping of the
command strings cannot pass as one argument. -/
theorem counterexample_C4 :
    (∃ pre post, finalVideoName (multerStore 1700000000000 "movie.mp4").path =
        pre ++ "movie.mp4" ++ post) ∧
    '"' ∈ (multerStore 1700000000000 "mov\"ie.mp4").path.data :=
  ⟨⟨"subtitled_1700000000000-", "", by decide⟩, by decide⟩

/-- Lists: `takeWhile` consumes a satisfying block up to the first failing
element. -/
theorem takeWhile_append_all {p : Char → Bool} (l1 l2 : List Char)
    (h : ∀ a ∈ l1, p a = true) (x : Char) (hx : p x = false) :
    (l1 ++ x :: l2).takeWhile p = l1 := by
  induction l1 with
  | nil => simp [List.takeWhile_cons, hx]
  | cons c cs ih =>
      have hc : p c = true := h c (List.mem_cons_self c cs)
      simp [List.takeWhile_cons, hc, ih (fun a ha => h a (List.mem_cons_of_mem c ha))]

/-- The basename of `d/s` is `s` when `s` holds no separator. -/
theorem baseNameOf_join (d s : String) (h : ∀ c ∈ s.data, c ≠ '/') :
    baseNameOf (pathJoin d s) = s := by
  unfold baseNameOf pathJoin
  have hdata : (d ++ "/" ++ s).data = (d.data ++ ['/']) ++ s.data := by
    simp [String.data_append]
  rw [hdata]
  have hrev : ((d.data ++ ['/']) ++ s.data).reverse =
      s.data.reverse ++ '/' :: d.data.reverse := by
    simp
  rw [hrev]
  rw [takeWhile_append_all s.data.reverse d.data.reverse ?_ '/' (by simp)]
  · simp
  · intro a ha
    simp only [List.mem_reverse] at ha
    simpa using h a ha

/-- A path whose basename holds no dot has an empty extension. -/
theorem extname_no_dot (p : String) (h : ∀ c ∈ (baseNameOf p).data, c ≠ '.') :
    extname p = "" := by
  have hd : (baseNameOf p).data.reverse.dropWhile (fun c => c != '.') = [] := by
    rw [List.dropWhile_eq_nil_iff]
    intro x hx
    simp only [List.mem_reverse] at hx
    simpa using h x hx
  simp only [extname, hd]

/-- Stripping the empty extension is the identity on the basename. -/
theorem basename_empty (p : String) : basename p "" = baseNameOf p := by
  simp [basename]

/-- For a stored name without separators and dots, the derived job id is the
stored name itself. -/
theorem derivedJobId_clean (d s : String)
    (h : ∀ c ∈ s.data, c ≠ '/' ∧ c ≠ '.') :
    derivedJobId (pathJoin d s) = s := by
  have hb : baseNameOf (pathJoin d s) = s :=
    baseNameOf_join d s (fun c hc => (h c hc).1)
  have he : extname (pathJoin d s) = "" := by
    apply extname_no_dot
    rw [hb]
    exact fun c hc => (h c hc).2
  rw [derivedJobId, he, basename_empty, hb]

/-- C4, amended. The rendered output filename is built only from the derived
job id, but that id embeds the user-supplied original filename: the stored
name is `<timestamp>-<originalname>`, so for any original name free of
separators and dots the output filename contains the original name verbatim.
Paths are interpolated into the command strings wrapped in plain double
quotes with no escaping, so quote characters in an original name break the
quoting (see the counterexample). -/
theorem claim_C4_amended (ts : Nat) (orig : String)
    (hts : ∀ c ∈ (toString ts).data, c ≠ '/' ∧ c ≠ '.')
    (horig : ∀ c ∈ orig.data, c ≠ '/' ∧ c ≠ '.') :
    finalVideoName (multerStore ts orig).path =
      "subtitled_" ++ (toString ts ++ "-" ++ orig) ++ ".mp4" ∧
    finalVideoName (multerStore ts orig).path =
      "subtitled_" ++ derivedJobId (multerStore ts orig).path ++ ".mp4" := by
  have hclean : ∀ c ∈ (storedFilename ts orig).data, c ≠ '/' ∧ c ≠ '.' := by
    intro c hc
    rw [storedFilename, String.data_append, String.data_append] at hc
    rcases List.mem_append.mp hc with h | h
    · rcases List.mem_append.mp h with h | h
      · exact hts c h
      · simp only [show ("-" : String).data = ['-'] from rfl, List.mem_singleton] at h
        subst h
        exact ⟨by decide, by decide⟩
    · exact horig c h
  have hid : derivedJobId (multerStore ts orig).path = storedFilename ts orig :=
    derivedJobId_clean UPLOADS_DIR (storedFilename ts orig) hclean
  constructor
  · rw [finalVideoName, hid, storedFilename]
  · rfl

/-- C4, witness: the amended claim applied to the upload `movie` at timestamp
1700000000000. -/
theorem claim_C4_witness :
    (∀ c ∈ (toString 1700000000000).data, c ≠ '/' ∧ c ≠ '.') ∧
    (∀ c ∈ ("movie" : String).data, c ≠ '/' ∧ c ≠ '.') ∧
    (finalVideoName (multerStore 1700000000000 "movie").path =
      "subtitled_" ++ (toString 1700000000000 ++ "-" ++ "movie") ++ ".mp4" ∧
    finalVideoName (multerStore 1700000000000 "movie").path =
      "subtitled_" ++ derivedJobId (multerStore 1700000000000 "movie").path ++ ".mp4") :=
  ⟨by decide, by decide,
    claim_C4_amended 1700000000000 "movie" (by decide) (by decide)⟩

/-- C5. If both tool invocations before the check succeed but no subtitle
file exists at the expected `<outputs>/<id>.srt`, the job fails with the
missing-artifact error `SRT file was not generated.` and no burn command is
ever run: the commands handed to `exec` are exactly the extract and whisper
commands. -/
theorem claim_C5_missing_srt (fp orig : String) (s : Subscriber) (o : ToolOracle)
    (fs0 : List String) (out1 out2 : String)
    (hex : o.extractRes = .ok out1) (hwh : o.whisperRes = .ok out2)
    (hsrt : o.whisperSrt = false)
    (hfs : generatedSrtPath fp ∉ fs0)
    (hne : generatedSrtPath fp ≠ audioPath fp) :
    (processVideo fp orig (some s) o fs0).outcome =
      .failed "SRT file was not generated." ∧
    (processVideo fp orig (some s) o fs0).final.cmds =
      [extractCmd fp, whisperCmd fp] := by
  cases hew : o.extractWav <;>
    simp [processVideo, tryBlock, emitE, runCommandE, step, hex, hwh, hsrt, hew, pushEvent,
      recordCmd, addFile, existsSync, hfs, hne, JsErr.message]

/-- C5, witness: the scenario upload with an oracle whose transcription
succeeds without producing the subtitle file. -/
theorem claim_C5_witness :
    srtMissingOracle.extractRes = .ok "" ∧
    srtMissingOracle.whisperRes = .ok "" ∧
    srtMissingOracle.whisperSrt = false ∧
    generatedSrtPath demoFp ∉ [demoFp] ∧
    generatedSrtPath demoFp ≠ audioPath demoFp ∧
    ((processVideo demoFp "movie.mp4" (some ⟨"s1"⟩) srtMissingOracle [demoFp]).outcome =
      .failed "SRT file was not generated." ∧
    (processVideo demoFp "movie.mp4" (some ⟨"s1"⟩) srtMissingOracle [demoFp]).final.cmds =
      [extractCmd demoFp, whisperCmd demoFp]) :=
  ⟨rfl, rfl, rfl, by decide, by decide,
    claim_C5_missing_srt demoFp "movie.mp4" ⟨"s1"⟩ srtMissingOracle [demoFp] "" ""
      rfl rfl rfl (by decide) (by decide)⟩

/-- C6. If the audio-extraction invocation fails, it is the only command ever
handed to `exec` (no transcription, no burn), the job ends failed with the
tool's message, and exactly one `error` event is emitted. -/
theorem claim_C6_extract_failure (fp orig : String) (s : Subscriber) (o : ToolOracle)
    (fs0 : List String) (msg : String) (hex : o.extractRes = .error msg) :
    (processVideo fp orig (some s) o fs0).outcome = .failed msg ∧
    (processVideo fp orig (some s) o fs0).final.cmds = [extractCmd fp] ∧
    errorEvents (processVideo fp orig (some s) o fs0).final.events =
      [⟨.error, .str msg⟩] := by
  simp [processVideo, tryBlock, emitE, runCommandE, step, hex, pushEvent, recordCmd,
    errorEvents, isErrorEvent, JsErr.message, List.filter]

/-- C6, witness: the scenario upload with an oracle whose extraction fails
with message `boom`. -/
theorem claim_C6_witness :
    extractFailOracle.extractRes = .error "boom" ∧
    ((processVideo demoFp "movie.mp4" (some ⟨"s1"⟩) extractFailOracle [demoFp]).outcome =
      .failed "boom" ∧
    (processVideo demoFp "movie.mp4" (some ⟨"s1"⟩) extractFailOracle [demoFp]).final.cmds =
      [extractCmd demoFp] ∧
    errorEvents (processVideo demoFp "movie.mp4" (some ⟨"s1"⟩) extractFailOracle
        [demoFp]).final.events = [⟨.error, .str "boom"⟩]) :=
  ⟨rfl, claim_C6_extract_failure demoFp "movie.mp4" ⟨"s1"⟩ extractFailOracle [demoFp]
    "boom" rfl⟩

/-- C7. Within one job the progress payloads are emitted in non-decreasing
order, and on the all-success path (live subscriber, all three tools succeed,
the subtitle file is produced) they are exactly `[10, 30, 60, 100]`. -/
theorem claim_C7_progress (fp orig : String) (sock : Option Subscriber) (o : ToolOracle)
    (fs0 : List String) :
    List.Chain' (fun a b => a ≤ b)
      (progressEvents (processVideo fp orig sock o fs0).final.events) ∧
    (∀ (s : Subscriber) (o1 o2 o3 : String), sock = some s → o.extractRes = .ok o1 →
      o.whisperRes = .ok o2 → o.whisperSrt = true → o.burnRes = .ok o3 →
      progressEvents (processVideo fp orig sock o fs0).final.events =
        [10, 30, 60, 100]) := by
  constructor
  · have h := progress_shape fp orig sock o fs0
    simp only [List.mem_cons, List.not_mem_nil, or_false] at h
    rcases h with h | h | h | h | h <;> rw [h] <;> simp [List.chain'_cons]
  · intro s o1 o2 o3 hs hex hwh hws hbr
    subst hs
    cases hew : o.extractWav <;> cases hbm : o.burnMp4 <;>
      simp [processVideo, tryBlock, emitE, runCommandE, step, pushEvent, recordCmd, addFile,
        existsSync, copyFileSync, unlinkSync, cleanupFs_eq, hex, hwh, hws, hbr, hew, hbm,
        progressEvents]

/-- C8. For the stored filename `1700000000000-movie.mp4` the derived job id
is `1700000000000-movie`, the final artifact path is
`outputs/subtitled_1700000000000-movie.mp4`, and the completion event of a
fully successful run carries the download reference
`/download/subtitled_1700000000000-movie.mp4`. -/
theorem claim_C8_scenario :
    derivedJobId demoFp = "1700000000000-movie" ∧
    finalVideoPath demoFp = "outputs/subtitled_1700000000000-movie.mp4" ∧
    (processVideo demoFp "movie.mp4" (some ⟨"s1"⟩) okOracle [demoFp]).outcome =
      .completed ∧
    completeEvents (processVideo demoFp "movie.mp4" (some ⟨"s1"⟩) okOracle
        [demoFp]).final.events =
      [⟨.complete, .urlObj "/download/subtitled_1700000000000-movie.mp4"⟩] := by
  decide

/-- C9. With a live subscriber, a job that ends failed has emitted exactly
one `error` event and a mirrored log entry, the error never escapes
`processVideo` (no crashed outcome ever occurs), and the `cleanup` closure
has not run on that path — it runs only when the job completes. -/
theorem claim_C9_failure_path (fp orig : String) (s : Subscriber) (o : ToolOracle)
    (fs0 : List String) :
    (∀ msg, (processVideo fp orig (some s) o fs0).outcome = .failed msg →
      errorEvents (processVideo fp orig (some s) o fs0).final.events =
        [⟨.error, .str msg⟩] ∧
      (⟨.log, .str ("❌ Error: " ++ msg)⟩ : Event) ∈
        (processVideo fp orig (some s) o fs0).final.events ∧
      (processVideo fp orig (some s) o fs0).final.cleanupRan = false) ∧
    (∀ msg, (processVideo fp orig (some s) o fs0).outcome ≠ .crashed msg) ∧
    ((processVideo fp orig (some s) o fs0).final.cleanupRan = true →
      (processVideo fp orig (some s) o fs0).outcome = .completed) := by
  obtain ⟨er, ew, wr, ws, br, bm⟩ := o
  cases er with
  | error m =>
      simp [processVideo, tryBlock, emitE, runCommandE, step, pushEvent, recordCmd,
        errorEvents, isErrorEvent, JsErr.message, List.filter]
  | ok o1 =>
    cases wr with
    | error m =>
        cases ew <;>
          simp [processVideo, tryBlock, emitE, runCommandE, step, pushEvent, recordCmd,
            addFile, errorEvents, isErrorEvent, JsErr.message, List.filter]
    | ok o2 =>
      by_cases h2 : generatedSrtPath fp = audioPath fp
      · by_cases h1 : audioPath fp ∈ fs0 <;>
          cases ws <;> cases ew <;> cases br <;> cases bm <;>
          simp [processVideo, tryBlock, emitE, runCommandE, step, pushEvent, recordCmd,
            addFile, existsSync, copyFileSync, unlinkSync, cleanupFs_eq, h2, h1,
            errorEvents, isErrorEvent, JsErr.message, List.filter]
      · by_cases h1 : generatedSrtPath fp ∈ fs0 <;>
          cases ws <;> cases ew <;> cases br <;> cases bm <;>
          simp [processVideo, tryBlock, emitE, runCommandE, step, pushEvent, recordCmd,
            addFile, existsSync, copyFileSync, unlinkSync, cleanupFs_eq, h2, h1,
            errorEvents, isErrorEvent, JsErr.message, List.filter]

/-- C10. `processVideo` receives `originalName` but never reads it: two runs
differing only in the original-filename argument are identical in every
observable (commands run, files produced, events emitted, outcome). -/
theorem claim_C10_originalName_unused (fp n1 n2 : String) (sock : Option Subscriber)
    (o : ToolOracle) (fs0 : List String) :
    processVideo fp n1 sock o fs0 = processVideo fp n2 sock o fs0 := rfl
